import Mathlib

/-!
# rlox — a shallow embedding of the bytecode compiler and VM

This file embeds the core of the `rlox` interpreter (a Rust clox-style
bytecode VM: `src/value.rs`, `src/chunk.rs`, `src/compiler.rs`,
`src/vm.rs`) and settles the frozen claims about it.

Modelling conventions:

* Rust `Rc` handles are modelled as indices into explicit heaps carried in
  the VM state (`strHeap`, `closHeap`, `classHeap`, `instHeap`, `uvHeap`,
  `bmHeap`).  `Rc::ptr_eq` becomes index equality; allocating a fresh `Rc`
  appends to the heap.
* `f64` numbers are modelled as exact rationals (`Rat`).  IEEE-754
  rounding, `NaN` behaviour and decimal formatting are abstracted; no claim
  settled here depends on them.
* Rust panics (out-of-bounds indexing, `unwrap`, `unreachable!`) are
  modelled as `Step.err` results whose message starts with `panic:`; they
  are distinct from `runtime_error` paths, which reset the stack, frames
  and open-upvalue map exactly as `VM::runtime_error` does.
* `HashMap`/`HashSet` keyed by `Rc<str>` hash and compare by string
  content in Rust, so they are modelled as association lists keyed by the
  string content; iteration order is unobservable.
-/

/-- Rust `Value` (src/value.rs): a tagged sum.  Heap objects (`Value::Obj`)
carry an index into the corresponding heap in the VM state; the index
plays the role of the `Rc` allocation address. -/
inductive Value where
  | nil
  | bool (b : Bool)
  | num (q : Rat)
  | str (id : Nat)
  | fn (id : Nat)
  | native (id : Nat)
  | closure (id : Nat)
  | classV (id : Nat)
  | inst (id : Nat)
  | bound (id : Nat)
deriving DecidableEq, Repr

/-- Rust `Value::is_falsey`: `nil` and `false` are falsey, all else truthy. -/
def Value.isFalsey : Value → Bool
  | .nil => true
  | .bool b => !b
  | _ => false

/-- Rust `Value::is_instance`. -/
def Value.isInstance : Value → Bool
  | .inst _ => true
  | _ => false

/-- Rust `impl PartialEq for Value` (src/value.rs:29-42): structural on
`Nil`/`Bool`/`Number`, `Rc::ptr_eq` on the inner `Rc<str>` for two
strings, `Rc::ptr_eq` on the `Obj` handle otherwise.  Pointer equality is
index equality (two values of different object variants are never the
same allocation). -/
def valueEq : Value → Value → Bool
  | .nil, .nil => true
  | .bool a, .bool b => a == b
  | .num a, .num b => a == b
  | .str a, .str b => a == b
  | .fn a, .fn b => a == b
  | .native a, .native b => a == b
  | .closure a, .closure b => a == b
  | .classV a, .classV b => a == b
  | .inst a, .inst b => a == b
  | .bound a, .bound b => a == b
  | _, _ => false

/-- Rust `StringInterner` (src/value.rs:104-124): a table mapping string
contents to the shared `Rc<str>` allocation holding them.  `entries`
associates contents to `strHeap` indices. -/
structure Interner where
  entries : List (String × Nat)
deriving DecidableEq, Repr

/-- Rust `StringInterner::intern`: return the existing allocation for `s` if
present, else allocate a fresh `Rc<str>` (append to `heap`) and record
it.  Returns the handle, the updated interner and the updated heap. -/
def Interner.intern (it : Interner) (heap : List String) (s : String) :
    Nat × Interner × List String :=
  match it.entries.lookup s with
  | some id => (id, it, heap)
  | none => (heap.length, ⟨it.entries ++ [(s, heap.length)]⟩, heap ++ [s])

/-- Well-formed interner: every entry points at a heap cell holding its
contents. -/
def InternerWF (it : Interner) (heap : List String) : Prop :=
  ∀ p ∈ it.entries, heap.get? p.2 = some p.1

/-- Rust `Chunk` (src/chunk.rs): parallel byte/line arrays and a constant
pool.  Bytes are `Nat`s (always < 256 in compiler-produced chunks). -/
structure Chunk where
  code : List Nat
  lines : List Nat
  constants : List Value
deriving DecidableEq, Repr

/-- Rust `Chunk::new`. -/
def Chunk.new : Chunk := ⟨[], [], []⟩

/-- Rust `Chunk::write`: append a byte and its source line. -/
def Chunk.write (c : Chunk) (b line : Nat) : Chunk :=
  { c with code := c.code ++ [b], lines := c.lines ++ [line] }

/-- Rust `Chunk::add_constant`: append to the pool, return its index. -/
def Chunk.addConstant (c : Chunk) (v : Value) : Chunk × Nat :=
  ({ c with constants := c.constants ++ [v] }, c.constants.length)

/-- Rust `Chunk::count`. -/
def Chunk.count (c : Chunk) : Nat := c.code.length

/-- Rust `Function` (src/value.rs:132-149).  `name` is carried by content (it
is only used for display). -/
structure FunctionData where
  arity : Nat
  upvalueCount : Nat
  chunk : Chunk
  name : Option String
deriving DecidableEq, Repr

/-- Rust `Closure` (src/value.rs:170-174): a function handle plus the ordered
upvalue handles (indices into `uvHeap`). -/
structure ClosureData where
  fnId : Nat
  upvalues : List Nat
deriving DecidableEq, Repr

/-- Rust `Upvalue` (src/value.rs:176-180): open (`closed = none`, reads go
through `stack[location]`) or closed (`closed = some v`). -/
structure UpvalueData where
  location : Nat
  closed : Option Value
deriving DecidableEq, Repr

/-- Rust `Upvalue::get_value`; `none` is the Rust panic on an out-of-range
open location. -/
def UpvalueData.getValue (uv : UpvalueData) (stack : List Value) : Option Value :=
  match uv.closed with
  | some v => some v
  | none => stack.get? uv.location

/-- Rust `Upvalue::set_value`: write the closed cell, or the owning stack
slot while open.  (An open out-of-range location is a Rust panic; every
call site keeps `location` below the stack length.) -/
def UpvalueData.setValue (uv : UpvalueData) (v : Value) (stack : List Value) :
    UpvalueData × List Value :=
  if uv.closed.isSome then ({ uv with closed := some v }, stack)
  else (uv, stack.set uv.location v)

/-- Rust `Class` (src/value.rs:200-204): name and the mutable methods table
(keyed by interned-string content). -/
structure ClassData where
  name : String
  methods : List (String × Value)
deriving DecidableEq, Repr

/-- Rust `Instance` (src/value.rs:206-210): a *weak* class handle and the
mutable field table. -/
structure InstData where
  classId : Nat
  fields : List (String × Value)
deriving DecidableEq, Repr

/-- Rust `BoundMethod` (src/value.rs:212-216). -/
structure BoundData where
  receiver : Value
  methodClosId : Nat
deriving DecidableEq, Repr

/-- Rust `CallFrame` (src/vm.rs:15-20). -/
structure Frame where
  closId : Nat
  ip : Nat
  slotOffset : Nat
deriving DecidableEq, Repr

/-- The VM state (src/vm.rs:22-30) together with the explicit heaps that
stand for the `Rc` allocations.  `frames` is kept innermost-first (the
head is `frames.last()` of the Rust `Vec`).  The stack is bottom-first
(index 0 is the bottom, matching Rust's absolute indices).  `classHeap`
cells are `none` once the class allocation has been dropped (its strong
count reached zero); `output` collects `OP_PRINT` lines. -/
structure VMState where
  frames : List Frame
  stack : List Value
  globals : List (String × Value)
  openUpvalues : List (Nat × Nat)
  vmInterner : Interner
  strHeap : List String
  fnHeap : List FunctionData
  closHeap : List ClosureData
  uvHeap : List UpvalueData
  classHeap : List (Option ClassData)
  instHeap : List InstData
  bmHeap : List BoundData
  output : List String
deriving DecidableEq, Repr

/-- Association-list update with `HashMap::insert` semantics: the new
binding shadows (replaces) any previous binding of the key. -/
def aRemove {α β : Type} [BEq α] (m : List (α × β)) (k : α) : List (α × β) :=
  m.filter (fun p => !(p.1 == k))

/-- Rust `HashMap::insert`. -/
def aInsert {α β : Type} [BEq α] (m : List (α × β)) (k : α) (v : β) : List (α × β) :=
  (k, v) :: aRemove m k

/-- Push onto the value stack (`VM::push`). -/
def pushV (st : List Value) (v : Value) : List Value := st ++ [v]

/-- Rust `VM::pop`; `none` is the Rust "Stack underflow" panic. -/
def popV (st : List Value) : Option (Value × List Value) :=
  match st.getLast? with
  | some v => some (v, st.dropLast)
  | none => none

/-- Rust `VM::peek(distance)`: `stack[len - 1 - distance]`; `none` is the
Rust out-of-bounds panic. -/
def peekV (st : List Value) (d : Nat) : Option Value :=
  if d < st.length then st.get? (st.length - 1 - d) else none

/-- The result of one dispatch step: continue, halt (`OP_RETURN` with no
frames left, `interpret` returns `Ok`), or stop with an error message
(a `runtime_error` or a modelled panic). -/
inductive Step where
  | ok (s : VMState)
  | halt (s : VMState)
  | err (msg : String) (s : VMState)
deriving DecidableEq, Repr

/-- Rust `VM::runtime_error`: report the message (it becomes the `err`
payload; the stderr backtrace is not modelled) and `reset_stack`
(clear stack, frames and open upvalues — src/vm.rs:720-744). -/
def runtimeError (s : VMState) (msg : String) : Step :=
  .err msg { s with stack := [], frames := [], openUpvalues := [] }

/-- Rust `OpCode` (src/chunk.rs). -/
inductive OpCode where
  | const | opNil | opTrue | opFalse | pop
  | getLocal | setLocal | getGlobal | defineGlobal | setGlobal
  | getUpvalue | setUpvalue | getProperty | setProperty | getSuper
  | equal | greater | less | add | subtract | multiply | divide
  | notOp | negate | print | jump | jumpIfFalse | loop | call
  | invoke | superInvoke | closure | closeUpvalue | ret
  | classOp | inherit | method
deriving DecidableEq, Repr

/-- Rust `OpCode::from_byte`. -/
def OpCode.fromByte : Nat → Option OpCode
  | 0 => some .const
  | 1 => some .opNil
  | 2 => some .opTrue
  | 3 => some .opFalse
  | 4 => some .pop
  | 5 => some .getLocal
  | 6 => some .setLocal
  | 7 => some .getGlobal
  | 8 => some .defineGlobal
  | 9 => some .setGlobal
  | 10 => some .getUpvalue
  | 11 => some .setUpvalue
  | 12 => some .getProperty
  | 13 => some .setProperty
  | 14 => some .getSuper
  | 15 => some .equal
  | 16 => some .greater
  | 17 => some .less
  | 18 => some .add
  | 19 => some .subtract
  | 20 => some .multiply
  | 21 => some .divide
  | 22 => some .notOp
  | 23 => some .negate
  | 24 => some .print
  | 25 => some .jump
  | 26 => some .jumpIfFalse
  | 27 => some .loop
  | 28 => some .call
  | 29 => some .invoke
  | 30 => some .superInvoke
  | 31 => some .closure
  | 32 => some .closeUpvalue
  | 33 => some .ret
  | 34 => some .classOp
  | 35 => some .inherit
  | 36 => some .method
  | _ => none

/-- Rust `VM::read_byte`: read `chunk.code[ip]` of the current frame and
advance `ip`.  `none` models the Rust panic on a bad frame/handle/ip. -/
def readByteOp (s : VMState) : Option (Nat × VMState) :=
  match s.frames with
  | [] => none
  | f :: rest =>
    match s.closHeap.get? f.closId with
    | none => none
    | some cl =>
      match s.fnHeap.get? cl.fnId with
      | none => none
      | some fn =>
        match fn.chunk.code.get? f.ip with
        | none => none
        | some b => some (b, { s with frames := { f with ip := f.ip + 1 } :: rest })

/-- Rust `VM::read_short`: two bytes, big-endian (`u16::from_be_bytes`),
advancing `ip` by 2. -/
def readShortOp (s : VMState) : Option (Nat × VMState) :=
  match s.frames with
  | [] => none
  | f :: rest =>
    match s.closHeap.get? f.closId with
    | none => none
    | some cl =>
      match s.fnHeap.get? cl.fnId with
      | none => none
      | some fn =>
        match fn.chunk.code.get? f.ip, fn.chunk.code.get? (f.ip + 1) with
        | some hi, some lo =>
            some (hi * 256 + lo, { s with frames := { f with ip := f.ip + 2 } :: rest })
        | _, _ => none

/-- Rust `VM::read_constant`: read a byte operand and index the current
chunk's constant pool with it. -/
def readConstantOp (s : VMState) : Option (Value × VMState) :=
  match readByteOp s with
  | none => none
  | some (idx, s1) =>
    match s1.frames with
    | [] => none
    | f :: _ =>
      match s1.closHeap.get? f.closId with
      | none => none
      | some cl =>
        match s1.fnHeap.get? cl.fnId with
        | none => none
        | some fn =>
          match fn.chunk.constants.get? idx with
          | none => none
          | some v => some (v, s1)

/-- Rust `VM::read_string`: `read_constant` and require a string (else Rust
panics).  Returns the string's contents (the `Rc<str>` both hashes and
compares by content). -/
def readStringOp (s : VMState) : Option (String × VMState) :=
  match readConstantOp s with
  | some (Value.str sid, s1) =>
    match s1.strHeap.get? sid with
    | some str => some (str, s1)
    | none => none
  | _ => none

/-- Rust `VM::capture_upvalue` (src/vm.rs:663-674): reuse the open upvalue
registered for this stack slot, else allocate a fresh open upvalue and
register it. -/
def captureUpvalue (s : VMState) (stackIndex : Nat) : Nat × VMState :=
  match s.openUpvalues.lookup stackIndex with
  | some h => (h, s)
  | none =>
    let h := s.uvHeap.length
    (h, { s with uvHeap := s.uvHeap ++ [⟨stackIndex, none⟩],
                 openUpvalues := (stackIndex, h) :: s.openUpvalues })

/-- One iteration of the `VM::close_upvalues` loop: remove the entry from
the open-upvalue map and close its cell over the value currently in its
stack slot.  (Reading a dead slot would be a Rust panic; call sites only
close live slots, so `getD` never sees its default in reachable
states.) -/
def closeOne (st : VMState) (p : Nat × Nat) : VMState :=
  match st.uvHeap.get? p.2 with
  | some uv =>
      { st with openUpvalues := aRemove st.openUpvalues p.1,
                uvHeap := st.uvHeap.set p.2
                  { uv with closed := some (st.stack.getD uv.location Value.nil) } }
  | none => { st with openUpvalues := aRemove st.openUpvalues p.1 }

/-- Rust `VM::close_upvalues` (src/vm.rs:676-690): every open upvalue with
`location ≥ last` is removed from the map and closed. -/
def closeUpvalues (s : VMState) (last : Nat) : VMState :=
  (s.openUpvalues.filter (fun p => decide (last ≤ p.1))).foldl closeOne s

/-- Number formatting for `Display` (integers print without a fraction;
the f64 shortest-decimal form of non-integers is abstracted — no claim
prints a non-integer). -/
def ratDisplay (q : Rat) : String :=
  if q.den == 1 then toString q.num else toString q.num ++ "/" ++ toString q.den

/-- Rust `impl Display for Value`/`Obj` (src/value.rs:44-102). -/
def displayValue (s : VMState) (v : Value) : String :=
  match v with
  | .nil => "nil"
  | .bool b => if b then "true" else "false"
  | .num q => ratDisplay q
  | .str i => (s.strHeap.get? i).getD ""
  | .fn i =>
    match s.fnHeap.get? i with
    | some fn =>
      match fn.name with
      | some n => "<fn " ++ n ++ ">"
      | none => "<script>"
    | none => ""
  | .native _ => "<native fn>"
  | .closure i =>
    match s.closHeap.get? i with
    | some cl =>
      match s.fnHeap.get? cl.fnId with
      | some fn =>
        match fn.name with
        | some n => "<fn " ++ n ++ ">"
        | none => "<script>"
      | none => ""
    | none => ""
  | .classV i =>
    match s.classHeap.get? i with
    | some (some c) => c.name
    | _ => ""
  | .inst i =>
    match s.instHeap.get? i with
    | some idata =>
      match s.classHeap.get? idata.classId with
      | some (some c) => c.name ++ " instance"
      | some none => "<dropped class> instance"
      | none => ""
    | none => ""
  | .bound i =>
    match s.bmHeap.get? i with
    | some b =>
      match s.closHeap.get? b.methodClosId with
      | some cl =>
        match s.fnHeap.get? cl.fnId with
        | some fn =>
          match fn.name with
          | some n => "<fn " ++ n ++ ">"
          | none => "<script>"
        | none => ""
      | none => ""
    | none => ""

/-- Rust `native::clock` (src/native.rs), the only native: it ignores its
arguments and returns `SystemTime::now()` as seconds since the Unix
epoch (an `f64` Number).  Wall-clock time is not a function of the VM
state, so the returned Number is modelled as an unspecified constant
(and the `Time went backwards` panic is absent); no claim settled in
this file invokes a native. -/
def natEval (_id : Nat) (_argc : Nat) (_args : List Value) : Value := Value.num 0

/-- Rust `VM::binary_op` (src/vm.rs:499-516): pop two, require numbers,
push `op a b`. -/
def binaryOp (s : VMState) (op : Rat → Rat → Value) : Step :=
  match popV s.stack with
  | none => .err "panic: stack underflow" s
  | some (b, st1) =>
    match popV st1 with
    | none => .err "panic: stack underflow" s
    | some (a, st2) =>
      match a, b with
      | .num x, .num y => .ok { s with stack := st2 ++ [op x y] }
      | _, _ => runtimeError s "Operands must be numbers."

/-- Rust `VM::call` (src/vm.rs:568-589): arity check, frame-count check
(`FRAMES_MAX = 64`), then push a `CallFrame` with `ip = 0` and
`slot_offset = stack.len() - arg_count - 1`. -/
def vmCall (s : VMState) (closId : Nat) (argc : Nat) : Step :=
  match s.closHeap.get? closId with
  | none => .err "panic: bad closure handle" s
  | some cl =>
    match s.fnHeap.get? cl.fnId with
    | none => .err "panic: bad function handle" s
    | some fn =>
      if argc ≠ fn.arity then
        runtimeError s ("Expected " ++ toString fn.arity ++ " arguments but got " ++
          toString argc ++ ".")
      else if 64 ≤ s.frames.length then
        runtimeError s "Stack overflow."
      else if argc + 1 ≤ s.stack.length then
        .ok { s with frames := ⟨closId, 0, s.stack.length - argc - 1⟩ :: s.frames }
      else .err "panic: stack underflow" s

/-- Rust `VM::call_value` (src/vm.rs:518-566). -/
def callValue (s : VMState) (callee : Value) (argc : Nat) : Step :=
  match callee with
  | .bound bid =>
    match s.bmHeap.get? bid with
    | none => .err "panic: bad bound-method handle" s
    | some bm =>
      if argc + 1 ≤ s.stack.length then
        let idx := s.stack.length - argc - 1
        vmCall { s with stack := s.stack.set idx bm.receiver } bm.methodClosId argc
      else .err "panic: stack underflow" s
  | .classV cid =>
    match s.classHeap.get? cid with
    | some (some cls) =>
      let iid := s.instHeap.length
      let s1 := { s with instHeap := s.instHeap ++ [⟨cid, []⟩] }
      if argc + 1 ≤ s1.stack.length then
        let idx := s1.stack.length - argc - 1
        let s2 := { s1 with stack := s1.stack.set idx (Value.inst iid) }
        match cls.methods.lookup "init" with
        | some (Value.closure mid) => vmCall s2 mid argc
        | some _ => .ok s2
        | none =>
          if argc ≠ 0 then
            runtimeError s2 ("Expected 0 arguments but got " ++ toString argc ++ ".")
          else .ok s2
      else .err "panic: stack underflow" s1
    | _ => .err "panic: class handle dropped while strongly referenced" s
  | .closure cid => vmCall s cid argc
  | .native nid =>
    if argc + 1 ≤ s.stack.length then
      let argsStart := s.stack.length - argc
      let result := natEval nid argc (s.stack.drop argsStart)
      .ok { s with stack := s.stack.take (argsStart - 1) ++ [result] }
    else .err "panic: stack underflow" s
  | _ => runtimeError s "Can only call functions and classes."

/-- Rust `VM::bind_method` (src/vm.rs:639-661). -/
def bindMethod (s : VMState) (cls : ClassData) (name : String) : Step :=
  match cls.methods.lookup name with
  | some (Value.closure mid) =>
    match popV s.stack with
    | none => .err "panic: stack underflow" s
    | some (receiver, st) =>
      let bid := s.bmHeap.length
      .ok { s with stack := st ++ [Value.bound bid],
                   bmHeap := s.bmHeap ++ [⟨receiver, mid⟩] }
  | some _ => runtimeError s ("Undefined property '" ++ name ++ "'.")
  | none => runtimeError s ("Undefined property '" ++ name ++ "'.")

/-- Rust `VM::invoke_from_class` (src/vm.rs:623-637). -/
def invokeFromClass (s : VMState) (cls : ClassData) (name : String) (argc : Nat) : Step :=
  match cls.methods.lookup name with
  | some (Value.closure mid) => vmCall s mid argc
  | some _ => runtimeError s ("Undefined property '" ++ name ++ "'.")
  | none => runtimeError s ("Undefined property '" ++ name ++ "'.")

/-- Rust `VM::invoke` (src/vm.rs:591-621). -/
def vmInvoke (s : VMState) (name : String) (argc : Nat) : Step :=
  match peekV s.stack argc with
  | none => .err "panic: stack underflow" s
  | some receiver =>
    match receiver with
    | .inst iid =>
      match s.instHeap.get? iid with
      | none => .err "panic: bad instance handle" s
      | some idata =>
        match idata.fields.lookup name with
        | some v =>
          if argc + 1 ≤ s.stack.length then
            let idx := s.stack.length - argc - 1
            callValue { s with stack := s.stack.set idx v } v argc
          else .err "panic: stack underflow" s
        | none =>
          match s.classHeap.get? idata.classId with
          | some (some cls) => invokeFromClass s cls name argc
          | some none => runtimeError s "Instance's class has been deallocated."
          | none => .err "panic: bad class handle" s
    | _ => runtimeError s "Only instances have methods."

/-- Rust `OP_GET_PROPERTY` (src/vm.rs:167-198): require an instance on top,
try the fields, else upgrade the weak class handle (a failed upgrade is
the runtime error `Instance's class has been deallocated.`) and bind the
method. -/
def execGetProperty (s : VMState) : Step :=
  match peekV s.stack 0 with
  | none => .err "panic: stack underflow" s
  | some receiver =>
    match receiver with
    | .inst iid =>
      match readStringOp s with
      | none => .err "panic: bad property constant" s
      | some (name, s1) =>
        match s1.instHeap.get? iid with
        | none => .err "panic: bad instance handle" s1
        | some idata =>
          match idata.fields.lookup name with
          | some v =>
            match popV s1.stack with
            | none => .err "panic: stack underflow" s1
            | some (_, st) => .ok { s1 with stack := st ++ [v] }
          | none =>
            match s1.classHeap.get? idata.classId with
            | some (some cls) => bindMethod s1 cls name
            | some none => runtimeError s1 "Instance's class has been deallocated."
            | none => .err "panic: bad class handle" s1
    | _ => runtimeError s "Only instances have properties."

/-- Rust `OP_SET_PROPERTY` (src/vm.rs:199-219): require an instance below the
value, insert the field (present or not — there is no undefined-property
error on this path), pop the instance and leave the value on top. -/
def execSetProperty (s : VMState) : Step :=
  match peekV s.stack 1 with
  | none => .err "panic: stack underflow" s
  | some below =>
    if below.isInstance then
      match readStringOp s with
      | none => .err "panic: bad property constant" s
      | some (name, s1) =>
        match popV s1.stack with
        | none => .err "panic: stack underflow" s1
        | some (v, st1) =>
          match peekV st1 0 with
          | some (Value.inst iid) =>
            match s1.instHeap.get? iid with
            | none => .err "panic: bad instance handle" s1
            | some idata =>
              let idata2 := { idata with fields := aInsert idata.fields name v }
              let s2 := { s1 with instHeap := s1.instHeap.set iid idata2 }
              match popV st1 with
              | none => .err "panic: stack underflow" s2
              | some (_, st2) => .ok { s2 with stack := st2 ++ [v] }
          | _ => .err "panic: unreachable non-instance" s1
    else runtimeError s "Only instances have fields."

/-- Rust `OP_ADD` (src/vm.rs:251-279): numbers add via `binary_op`; two
strings concatenate (left then right), the result is interned in the
*VM's* interner and pushed; anything else is the runtime error
`Operands must be two numbers or two strings.`. -/
def execAdd (s : VMState) : Step :=
  match peekV s.stack 0, peekV s.stack 1 with
  | some b, some a =>
    match a, b with
    | .num _, .num _ => binaryOp s (fun x y => Value.num (x + y))
    | .str i, .str j =>
      match s.strHeap.get? i, s.strHeap.get? j with
      | some sa, some sb =>
        (match popV s.stack with
         | some (_, st1) =>
           match popV st1 with
           | some (_, st2) =>
             let r := sa ++ sb
             let (id, itn, heap) := Interner.intern s.vmInterner s.strHeap r
             .ok { s with stack := st2 ++ [Value.str id], vmInterner := itn, strHeap := heap }
           | none => .err "panic: stack underflow" s
         | none => .err "panic: stack underflow" s)
      | _, _ => .err "panic: bad string handle" s
    | _, _ => runtimeError s "Operands must be two numbers or two strings."
  | _, _ => .err "panic: stack underflow" s

/-- The `(is_local, index)` operand pairs of `OP_CLOSURE`
(src/vm.rs:377-391): read `upvalue_count` pairs, each capturing a local
slot or reusing an enclosing upvalue handle. -/
def readClosureUpvalues : Nat → VMState → List Nat → Option (List Nat × VMState)
  | 0, s, acc => some (acc.reverse, s)
  | n + 1, s, acc =>
    match readByteOp s with
    | none => none
    | some (il, s1) =>
      match readByteOp s1 with
      | none => none
      | some (idx, s2) =>
        match s2.frames with
        | [] => none
        | f :: _ =>
          if il ≠ 0 then
            let (h, s3) := captureUpvalue s2 (f.slotOffset + idx)
            readClosureUpvalues n s3 (h :: acc)
          else
            match s2.closHeap.get? f.closId with
            | none => none
            | some cl =>
              match cl.upvalues.get? idx with
              | some h => readClosureUpvalues n s2 (h :: acc)
              | none => none

/-- Rust `OP_CLOSURE` (src/vm.rs:362-395). -/
def execClosure (s : VMState) : Step :=
  match readConstantOp s with
  | none => .err "panic: bad constant" s
  | some (v, s1) =>
    match v with
    | .fn fid =>
      match s1.fnHeap.get? fid with
      | none => .err "panic: bad function handle" s1
      | some fn =>
        match readClosureUpvalues fn.upvalueCount s1 [] with
        | none => .err "panic: bad closure operands" s1
        | some (ups, s2) =>
          let cid := s2.closHeap.length
          .ok { s2 with closHeap := s2.closHeap ++ [⟨fid, ups⟩],
                        stack := s2.stack ++ [Value.closure cid] }
    | _ => runtimeError s1 "Expected function."

/-- Execute one decoded opcode; `s` already has `ip` advanced past the
opcode byte (the dispatch loop increments before matching). -/
def execOp (s : VMState) : OpCode → Step
  | .const =>
    match readConstantOp s with
    | none => .err "panic: bad constant" s
    | some (v, s1) => .ok { s1 with stack := s1.stack ++ [v] }
  | .opNil => .ok { s with stack := s.stack ++ [Value.nil] }
  | .opTrue => .ok { s with stack := s.stack ++ [Value.bool true] }
  | .opFalse => .ok { s with stack := s.stack ++ [Value.bool false] }
  | .pop =>
    match popV s.stack with
    | none => .err "panic: stack underflow" s
    | some (_, st) => .ok { s with stack := st }
  | .getLocal =>
    match readByteOp s with
    | none => .err "panic: bad operand" s
    | some (slot, s1) =>
      match s1.frames with
      | [] => .err "panic: no frame" s1
      | f :: _ =>
        match s1.stack.get? (f.slotOffset + slot) with
        | none => .err "panic: bad local slot" s1
        | some v => .ok { s1 with stack := s1.stack ++ [v] }
  | .setLocal =>
    match readByteOp s with
    | none => .err "panic: bad operand" s
    | some (slot, s1) =>
      match s1.frames with
      | [] => .err "panic: no frame" s1
      | f :: _ =>
        match peekV s1.stack 0 with
        | none => .err "panic: stack underflow" s1
        | some v =>
          if f.slotOffset + slot < s1.stack.length then
            .ok { s1 with stack := s1.stack.set (f.slotOffset + slot) v }
          else .err "panic: bad local slot" s1
  | .getGlobal =>
    match readStringOp s with
    | none => .err "panic: bad name constant" s
    | some (name, s1) =>
      match s1.globals.lookup name with
      | some v => .ok { s1 with stack := s1.stack ++ [v] }
      | none => runtimeError s1 ("Undefined variable '" ++ name ++ "'.")
  | .defineGlobal =>
    match readStringOp s with
    | none => .err "panic: bad name constant" s
    | some (name, s1) =>
      match popV s1.stack with
      | none => .err "panic: stack underflow" s1
      | some (v, st) => .ok { s1 with stack := st, globals := aInsert s1.globals name v }
  | .setGlobal =>
    match readStringOp s with
    | none => .err "panic: bad name constant" s
    | some (name, s1) =>
      match s1.globals.lookup name with
      | none => runtimeError s1 ("Undefined variable '" ++ name ++ "'.")
      | some _ =>
        match peekV s1.stack 0 with
        | none => .err "panic: stack underflow" s1
        | some v => .ok { s1 with globals := aInsert s1.globals name v }
  | .getUpvalue =>
    match readByteOp s with
    | none => .err "panic: bad operand" s
    | some (slot, s1) =>
      match s1.frames with
      | [] => .err "panic: no frame" s1
      | f :: _ =>
        match s1.closHeap.get? f.closId with
        | none => .err "panic: bad closure handle" s1
        | some cl =>
          match cl.upvalues.get? slot with
          | none => .err "panic: bad upvalue slot" s1
          | some h =>
            match s1.uvHeap.get? h with
            | none => .err "panic: bad upvalue handle" s1
            | some uv =>
              match uv.getValue s1.stack with
              | none => .err "panic: bad upvalue location" s1
              | some v => .ok { s1 with stack := s1.stack ++ [v] }
  | .setUpvalue =>
    match readByteOp s with
    | none => .err "panic: bad operand" s
    | some (slot, s1) =>
      match peekV s1.stack 0 with
      | none => .err "panic: stack underflow" s1
      | some v =>
        match s1.frames with
        | [] => .err "panic: no frame" s1
        | f :: _ =>
          match s1.closHeap.get? f.closId with
          | none => .err "panic: bad closure handle" s1
          | some cl =>
            match cl.upvalues.get? slot with
            | none => .err "panic: bad upvalue slot" s1
            | some h =>
              match s1.uvHeap.get? h with
              | none => .err "panic: bad upvalue handle" s1
              | some uv =>
                let (uv2, st2) := uv.setValue v s1.stack
                .ok { s1 with uvHeap := s1.uvHeap.set h uv2, stack := st2 }
  | .getProperty => execGetProperty s
  | .setProperty => execSetProperty s
  | .getSuper =>
    match readStringOp s with
    | none => .err "panic: bad name constant" s
    | some (name, s1) =>
      match popV s1.stack with
      | none => .err "panic: stack underflow" s1
      | some (sup, st) =>
        match sup with
        | .classV cid =>
          match s1.classHeap.get? cid with
          | some (some cls) => bindMethod { s1 with stack := st } cls name
          | _ => .err "panic: class handle dropped while strongly referenced" s1
        | _ => runtimeError { s1 with stack := st } "Superclass must be a class."
  | .equal =>
    match popV s.stack with
    | none => .err "panic: stack underflow" s
    | some (b, st1) =>
      match popV st1 with
      | none => .err "panic: stack underflow" s
      | some (a, st2) => .ok { s with stack := st2 ++ [Value.bool (valueEq a b)] }
  | .greater => binaryOp s (fun a b => Value.bool (decide (a > b)))
  | .less => binaryOp s (fun a b => Value.bool (decide (a < b)))
  | .add => execAdd s
  | .subtract => binaryOp s (fun a b => Value.num (a - b))
  | .multiply => binaryOp s (fun a b => Value.num (a * b))
  | .divide => binaryOp s (fun a b => Value.num (a / b))
  | .notOp =>
    match popV s.stack with
    | none => .err "panic: stack underflow" s
    | some (v, st) => .ok { s with stack := st ++ [Value.bool v.isFalsey] }
  | .negate =>
    match peekV s.stack 0 with
    | none => .err "panic: stack underflow" s
    | some v =>
      match v with
      | .num _ =>
        (match popV s.stack with
         | some (Value.num n, st) => .ok { s with stack := st ++ [Value.num (-n)] }
         | _ => .err "panic: stack underflow" s)
      | _ => runtimeError s "Operand must be a number."
  | .print =>
    match popV s.stack with
    | none => .err "panic: stack underflow" s
    | some (v, st) =>
      .ok { s with stack := st, output := s.output ++ [displayValue s v] }
  | .jump =>
    match readShortOp s with
    | none => .err "panic: bad jump operand" s
    | some (off, s1) =>
      match s1.frames with
      | [] => .err "panic: no frame" s1
      | f :: rest => .ok { s1 with frames := { f with ip := f.ip + off } :: rest }
  | .jumpIfFalse =>
    match readShortOp s with
    | none => .err "panic: bad jump operand" s
    | some (off, s1) =>
      match peekV s1.stack 0 with
      | none => .err "panic: stack underflow" s1
      | some v =>
        if v.isFalsey then
          match s1.frames with
          | [] => .err "panic: no frame" s1
          | f :: rest => .ok { s1 with frames := { f with ip := f.ip + off } :: rest }
        else .ok s1
  | .loop =>
    match readShortOp s with
    | none => .err "panic: bad jump operand" s
    | some (off, s1) =>
      match s1.frames with
      | [] => .err "panic: no frame" s1
      | f :: rest =>
        if off ≤ f.ip then .ok { s1 with frames := { f with ip := f.ip - off } :: rest }
        else .err "panic: ip underflow" s1
  | .call =>
    match readByteOp s with
    | none => .err "panic: bad operand" s
    | some (argc, s1) =>
      if argc + 1 ≤ s1.stack.length then
        match s1.stack.get? (s1.stack.length - 1 - argc) with
        | none => .err "panic: stack underflow" s1
        | some callee => callValue s1 callee argc
      else .err "panic: stack underflow" s1
  | .invoke =>
    match readStringOp s with
    | none => .err "panic: bad name constant" s
    | some (name, s1) =>
      match readByteOp s1 with
      | none => .err "panic: bad operand" s1
      | some (argc, s2) => vmInvoke s2 name argc
  | .superInvoke =>
    match readStringOp s with
    | none => .err "panic: bad name constant" s
    | some (name, s1) =>
      match readByteOp s1 with
      | none => .err "panic: bad operand" s1
      | some (argc, s2) =>
        match popV s2.stack with
        | none => .err "panic: stack underflow" s2
        | some (sup, st) =>
          match sup with
          | .classV cid =>
            match s2.classHeap.get? cid with
            | some (some cls) => invokeFromClass { s2 with stack := st } cls name argc
            | _ => .err "panic: class handle dropped while strongly referenced" s2
          | _ => runtimeError { s2 with stack := st } "Superclass must be a class."
  | .closure => execClosure s
  | .closeUpvalue =>
    let s1 := closeUpvalues s (s.stack.length - 1)
    (match popV s1.stack with
     | none => .err "panic: stack underflow" s1
     | some (_, st) => .ok { s1 with stack := st })
  | .ret =>
    match s.frames with
    | [] => .err "panic: no frame" s
    | f :: rest =>
      let s1 := closeUpvalues s f.slotOffset
      match popV s1.stack with
      | none => .err "panic: stack underflow" s1
      | some (result, st1) =>
        let s2 := { s1 with stack := st1, frames := rest }
        if rest.isEmpty then
          match popV s2.stack with
          | none => .err "panic: stack underflow" s2
          | some (_, st2) => .halt { s2 with stack := st2 }
        else .ok { s2 with stack := st1.take f.slotOffset ++ [result] }
  | .classOp =>
    match readStringOp s with
    | none => .err "panic: bad name constant" s
    | some (name, s1) =>
      let cid := s1.classHeap.length
      .ok { s1 with classHeap := s1.classHeap ++ [some ⟨name, []⟩],
                    stack := s1.stack ++ [Value.classV cid] }
  | .inherit =>
    match peekV s.stack 1 with
    | none => .err "panic: stack underflow" s
    | some sup =>
      match sup with
      | .classV supId =>
        match s.classHeap.get? supId with
        | some (some supCls) =>
          (match peekV s.stack 0 with
           | some (Value.classV subId) =>
             match s.classHeap.get? subId with
             | some (some subCls) =>
               let merged := supCls.methods.foldl (fun m p => aInsert m p.1 p.2) subCls.methods
               (match popV s.stack with
                | none => .err "panic: stack underflow" s
                | some (_, st) =>
                  let sub2 := some { subCls with methods := merged }
                  .ok { s with classHeap := s.classHeap.set subId sub2, stack := st })
             | _ => .err "panic: class handle dropped while strongly referenced" s
           | _ => .err "panic: unreachable non-class" s)
        | _ => .err "panic: class handle dropped while strongly referenced" s
      | _ => runtimeError s "Superclass must be a class."
  | .method =>
    match readStringOp s with
    | none => .err "panic: bad name constant" s
    | some (name, s1) =>
      match popV s1.stack with
      | none => .err "panic: stack underflow" s1
      | some (m, st) =>
        match peekV st 0 with
        | some (Value.classV cid) =>
          match s1.classHeap.get? cid with
          | some (some cls) =>
            let cls2 := some { cls with methods := aInsert cls.methods name m }
            .ok { s1 with stack := st, classHeap := s1.classHeap.set cid cls2 }
          | _ => .err "panic: class handle dropped while strongly referenced" s1
        | _ => .err "panic: unreachable non-class" s1

/-- One iteration of `VM::run`'s dispatch loop (src/vm.rs:83-465): fetch
the byte at `ip`, advance `ip`, decode and execute.  An unknown opcode is
a runtime error. -/
def vmStep (s : VMState) : Step :=
  match s.frames with
  | [] => .err "panic: no frame" s
  | f :: rest =>
    match s.closHeap.get? f.closId with
    | none => .err "panic: bad closure handle" s
    | some cl =>
      match s.fnHeap.get? cl.fnId with
      | none => .err "panic: bad function handle" s
      | some fn =>
        match fn.chunk.code.get? f.ip with
        | none => .err "panic: ip out of bounds" s
        | some b =>
          let s1 : VMState := { s with frames := { f with ip := f.ip + 1 } :: rest }
          match OpCode.fromByte b with
          | some op => execOp s1 op
          | none => runtimeError s1 ("Unknown opcode: " ++ toString b)

/-- The overall interpretation outcome. -/
inductive Outcome where
  | ok
  | runtimeErr (msg : String)
  | outOfFuel
deriving DecidableEq, Repr

/-- Iterate `vmStep` (fuelled; the Rust loop runs until return/error). -/
def runLoop : Nat → VMState → Outcome × VMState
  | 0, s => (.outOfFuel, s)
  | fuel + 1, s =>
    match vmStep s with
    | .ok s' => runLoop fuel s'
    | .halt s' => (.ok, s')
    | .err m s' => (.runtimeErr m, s')

/-! ## Rc reference counting for Class allocations

`Instance.class` is a `Weak<Class>`; every other occurrence of a class
value is a strong `Rc<Class>`.  A class allocation is freed the moment
its last strong reference is dropped (e.g. when `OP_RETURN` truncates
the stack).  `plain vmStep` leaves `classHeap` cells allocated forever;
`vmStepRc` refines it with the drop semantics. -/

/-- The class handle held (strongly) by a value, if any. -/
def valueClassRef : Value → List Nat
  | .classV i => [i]
  | _ => []

/-- Class handles held by an association table's values. -/
def classRefsOfPairs (l : List (String × Value)) : List Nat :=
  l.flatMap (fun p => valueClassRef p.2)

/-- Every strong `Rc<Class>` reference in the VM state: stack slots,
global values, instance fields, closed upvalue cells, bound-method
receivers and class method tables.  (Instance→Class edges are weak and
deliberately absent.)  Entries of dead containers are scanned too, which
can only over-approximate liveness — i.e. the model never frees a class
earlier than Rust does. -/
def stateClassRefs (s : VMState) : List Nat :=
  s.stack.flatMap valueClassRef
  ++ classRefsOfPairs s.globals
  ++ s.instHeap.flatMap (fun i => classRefsOfPairs i.fields)
  ++ s.uvHeap.flatMap (fun u => match u.closed with
      | some v => valueClassRef v
      | none => [])
  ++ s.bmHeap.flatMap (fun b => valueClassRef b.receiver)
  ++ s.classHeap.flatMap (fun c => match c with
      | some cd => classRefsOfPairs cd.methods
      | none => [])

/-- Drop every class allocation whose strong count has reached zero.
Exact for states without strong `Rc<Class>` cycles (none arises in the
programs considered here). -/
def sweepClasses (s : VMState) : VMState :=
  let refs := stateClassRefs s
  { s with classHeap := s.classHeap.enum.map (fun p => if refs.contains p.1 then p.2 else none) }

/-- The step function with `Rc` drop semantics for classes: dead class
allocations are freed after each instruction, as Rust frees an `Rc` the
moment its last strong clone is dropped. -/
def vmStepRc (s : VMState) : Step :=
  match vmStep s with
  | .ok s' => .ok (sweepClasses s')
  | r => r

/-- Iterate `vmStepRc`. -/
def runLoopRc : Nat → VMState → Outcome × VMState
  | 0, s => (.outOfFuel, s)
  | fuel + 1, s =>
    match vmStepRc s with
    | .ok s' => runLoopRc fuel s'
    | .halt s' => (.ok, s')
    | .err m s' => (.runtimeErr m, s')

/-! ## Compiler-side definitions (src/compiler.rs) -/

/-- Rust `FunctionType` (src/compiler.rs:7-13). -/
inductive FunctionType where
  | function
  | initializer
  | method
  | script
deriving DecidableEq, Repr

/-- Rust `Compiler::method` chooses the function type from the method name
(src/compiler.rs:367-371): `init` compiles as an initializer. -/
def methodFunctionType (name : String) : FunctionType :=
  if name == "init" then .initializer else .method

/-- Rust `Compiler::emit_return` (src/compiler.rs:198-205), as the byte
sequence it appends: `OP_GET_LOCAL 0` then `OP_RETURN` for an
initializer, `OP_NIL` then `OP_RETURN` otherwise. -/
def emitReturnBytes (ft : FunctionType) : List Nat :=
  (if ft = .initializer then [5, 0] else [1]) ++ [33]

/-- Rust `Compiler::return_statement` (src/compiler.rs:561-577), abstracted
over the parse outcome: `bare` is whether the `return` is immediately
followed by `;`, and `exprBytes` is the code the expression compiles to
in the value-returning case.  Returns the appended bytes and the errors
reported. -/
def returnStatement (ft : FunctionType) (bare : Bool) (exprBytes : List Nat) :
    List Nat × List String :=
  let errs0 := if ft = .script then ["Can't return from top-level code."] else []
  if bare then (emitReturnBytes ft, errs0)
  else
    let errs1 := if ft = .initializer then
        errs0 ++ ["Can't return a value from an initializer."]
      else errs0
    (exprBytes ++ [33], errs1)

/-- Rust `Compiler::emit_jump` (src/compiler.rs:221-226): emit the opcode and
two `0xff` placeholder bytes; return the offset of the placeholder. -/
def emitJump (c : Chunk) (line instr : Nat) : Chunk × Nat :=
  let c1 := ((c.write instr line).write 255 line).write 255 line
  (c1, c1.count - 2)

/-- Rust `Compiler::emit_loop` (src/compiler.rs:228-239): emit `OP_LOOP` and
the big-endian 16-bit distance back to `loop_start` (measured from the
ip after the operand); an offset above 65535 is the compile error
`Loop body too large.` (the truncated bytes are still written, as in the
source, where `error` only records the failure). -/
def emitLoop (c : Chunk) (line loopStart : Nat) : Chunk × List String :=
  let c1 := c.write 27 line
  let offset := c1.count - loopStart + 2
  let errs := if 65535 < offset then ["Loop body too large."] else []
  let o := offset % 65536
  (((c1.write (o / 256) line).write (o % 256) line), errs)

/-- Rust `Compiler::patch_jump` (src/compiler.rs:241-251): back-patch the
placeholder at `offset` with the big-endian distance from the byte after
the operand to the current end of code; a distance above 65535 is the
compile error `Too much code to jump over.`. -/
def patchJump (c : Chunk) (offset : Nat) : Chunk × List String :=
  let jump := c.count - offset - 2
  let errs := if 65535 < jump then ["Too much code to jump over."] else []
  let j := jump % 65536
  ({ c with code := (c.code.set offset (j / 256)).set (offset + 1) (j % 256) }, errs)

/-- The compiler's per-closure `Upvalue` record (src/compiler.rs:32-36). -/
structure CompUpvalue where
  index : Nat
  isLocal : Bool
deriving DecidableEq, Repr

/-- The `FunctionCompiler` fields that govern upvalue bookkeeping
(src/compiler.rs:15-23): the `upvalues` vector, the compiled function's
`upvalue_count`, and the errors reported so far. -/
structure UpvalueCompiler where
  upvalues : List CompUpvalue
  upvalueCount : Nat
  errors : List String
deriving DecidableEq, Repr

/-- The state of a fresh `FunctionCompiler` (`Function::new` sets
`upvalue_count = 0`; `upvalues` starts empty). -/
def upvalueCompilerInit : UpvalueCompiler := ⟨[], 0, []⟩

/-- Rust `Compiler::add_upvalue` (src/compiler.rs:969-988): return the index
of an existing identical `(index, is_local)` upvalue, else (limit 256)
append one and bump `function.upvalue_count`. -/
def addUpvalue (fc : UpvalueCompiler) (index : Nat) (isLocal : Bool) :
    Nat × UpvalueCompiler :=
  let uc := fc.upvalueCount
  match (fc.upvalues.take uc).findIdx? (fun u => u.index == index && u.isLocal == isLocal) with
  | some i => (i, fc)
  | none =>
    if 256 ≤ uc then
      (0, { fc with errors := fc.errors ++ ["Too many closure variables in function."] })
    else
      (uc, { fc with upvalues := fc.upvalues ++ [⟨index, isLocal⟩], upvalueCount := uc + 1 })

/-- Apply a sequence of `add_upvalue` requests (the only operations that
ever touch `upvalues` / `upvalue_count` during compilation). -/
def addUpvalues (reqs : List (Nat × Bool)) (fc : UpvalueCompiler) : UpvalueCompiler :=
  reqs.foldl (fun c r => (addUpvalue c r.1 r.2).2) fc

/-- The trailing operand bytes `Compiler::function` emits after
`OP_CLOSURE <constant>` (src/compiler.rs:432-448): one
`(is_local, index)` byte pair per entry of `upvalues`. -/
def closureOperandBytes (fc : UpvalueCompiler) : List Nat :=
  (fc.upvalues.map (fun u => (u.isLocal, u.index))).flatMap
    (fun p => [if p.1 then 1 else 0, p.2])

/-! ## Concrete programs

`VM::new` interns `init` and registers the `clock` native; compilation
then interns its identifier and string-literal constants into the
*compiler's own* fresh interner (`Compiler::compile`,
src/compiler.rs:102-147), allocating further `Rc<str>` cells.  The
`Rc<str>` arena is shared (allocation indices are global), the interner
*tables* are not. -/

/-- The state `VM::new` produces (src/vm.rs:39-59): `init` interned,
`clock` interned and bound to the native. -/
def vmNew : VMState :=
  let r1 := Interner.intern ⟨[]⟩ [] "init"
  let r2 := Interner.intern r1.2.1 r1.2.2 "clock"
  { frames := [], stack := [], globals := aInsert [] "clock" (Value.native 0),
    openUpvalues := [], vmInterner := r2.2.1, strHeap := r2.2.2,
    fnHeap := [], closHeap := [], uvHeap := [], classHeap := [],
    instHeap := [], bmHeap := [], output := [] }

/-- Rust `VM::interpret` after a successful compile (src/vm.rs:61-81): wrap
the script function in a closure, push it, `call_value` it with 0
arguments, then run.  `heap` is the `Rc<str>` arena after compilation
and `fns` the compiled functions (`scriptId` the script's handle). -/
def bootState (heap : List String) (fns : List FunctionData) (scriptId : Nat) : VMState :=
  let scriptClosure : ClosureData := ⟨scriptId, []⟩
  let s0 := { vmNew with strHeap := heap, fnHeap := fns, closHeap := [scriptClosure], stack := [Value.closure 0] }
  match callValue s0 (Value.closure 0) 0 with
  | .ok s1 => s1
  | .halt s1 => s1
  | .err _ s1 => s1

/-- The compiler-interner allocations for
`var a = "he" + "llo"; var b = "hello"; print a == b;`
in parse order (`a`, `"he"`, `"llo"`, `b`, `"hello"`, then `a` and `b`
again, which deduplicate).  The compiler's interner starts empty; the
arena continues after `VM::new`'s two cells. -/
def c1Intern0 : Nat × Interner × List String := Interner.intern ⟨[]⟩ vmNew.strHeap "a"
def c1Intern1 : Nat × Interner × List String := Interner.intern c1Intern0.2.1 c1Intern0.2.2 "he"
def c1Intern2 : Nat × Interner × List String := Interner.intern c1Intern1.2.1 c1Intern1.2.2 "llo"
def c1Intern3 : Nat × Interner × List String := Interner.intern c1Intern2.2.1 c1Intern2.2.2 "b"
def c1Intern4 : Nat × Interner × List String := Interner.intern c1Intern3.2.1 c1Intern3.2.2 "hello"
def c1Intern5 : Nat × Interner × List String := Interner.intern c1Intern4.2.1 c1Intern4.2.2 "a"
def c1Intern6 : Nat × Interner × List String := Interner.intern c1Intern5.2.1 c1Intern5.2.2 "b"

/-- The `Rc<str>` arena after compiling the C1 program. -/
def c1Heap : List String := c1Intern6.2.2

/-- The script `Function` the compiler emits for
`var a = "he" + "llo"; var b = "hello"; print a == b;`:

    CONSTANT 1; CONSTANT 2; ADD; DEFINE_GLOBAL 0;
    CONSTANT 4; DEFINE_GLOBAL 3;
    GET_GLOBAL 5; GET_GLOBAL 6; EQUAL; PRINT;
    NIL; RETURN

with constants `[a, "he", "llo", b, "hello", a, b]` (the compiler does
not deduplicate constants, only interned strings).  Line numbers are
immaterial to every claim. -/
def c1Script : FunctionData :=
  { arity := 0, upvalueCount := 0, name := none,
    chunk := { code := [0,1, 0,2, 18, 8,0, 0,4, 8,3, 7,5, 7,6, 15, 24, 1, 33],
               lines := List.replicate 18 1,
               constants := [Value.str c1Intern0.1, Value.str c1Intern1.1,
                             Value.str c1Intern2.1, Value.str c1Intern3.1,
                             Value.str c1Intern4.1, Value.str c1Intern5.1,
                             Value.str c1Intern6.1] } }

/-- The full C1 run. -/
def c1Run : Outcome × VMState := runLoop 40 (bootState c1Heap [c1Script] 0)

/-- Arena for `print foo;`: just the identifier `foo`. -/
def c8Intern0 : Nat × Interner × List String := Interner.intern ⟨[]⟩ vmNew.strHeap "foo"

/-- The script `Function` for `print foo;`:
`GET_GLOBAL 0; PRINT; NIL; RETURN` with constants `[foo]`. -/
def c8Script : FunctionData :=
  { arity := 0, upvalueCount := 0, name := none,
    chunk := { code := [7,0, 24, 1, 33],
               lines := List.replicate 5 1,
               constants := [Value.str c8Intern0.1] } }

/-- The full `print foo;` run. -/
def c8Run : Outcome × VMState := runLoop 10 (bootState c8Intern0.2.2 [c8Script] 0)

/-- Compiler-interner allocations for
`fun f() { class C {} return C(); } var i = f(); print i.x;`
in parse order: `f`, `C`, `i`, (`f`, `i` deduplicate), `x`. -/
def c3Intern0 : Nat × Interner × List String := Interner.intern ⟨[]⟩ vmNew.strHeap "f"
def c3Intern1 : Nat × Interner × List String := Interner.intern c3Intern0.2.1 c3Intern0.2.2 "C"
def c3Intern2 : Nat × Interner × List String := Interner.intern c3Intern1.2.1 c3Intern1.2.2 "i"
def c3Intern3 : Nat × Interner × List String := Interner.intern c3Intern2.2.1 c3Intern2.2.2 "f"
def c3Intern4 : Nat × Interner × List String := Interner.intern c3Intern3.2.1 c3Intern3.2.2 "i"
def c3Intern5 : Nat × Interner × List String := Interner.intern c3Intern4.2.1 c3Intern4.2.2 "x"

/-- The compiled body of `fun f() { class C {} return C(); }`:

    CLASS 0; GET_LOCAL 1; POP;     (class declaration, local `C`)
    GET_LOCAL 1; CALL 0; RETURN;   (return C();)
    NIL; RETURN                    (implicit return)

with constants `[C]`. -/
def c3FunF : FunctionData :=
  { arity := 0, upvalueCount := 0, name := some "f",
    chunk := { code := [34,0, 5,1, 4, 5,1, 28,0, 33, 1, 33],
               lines := List.replicate 12 1,
               constants := [Value.str c3Intern1.1] } }

/-- The script function for
`fun f() { class C {} return C(); } var i = f(); print i.x;`:

    CLOSURE 1; DEFINE_GLOBAL 0;    (fun f ...)
    GET_GLOBAL 3; CALL 0; DEFINE_GLOBAL 2;  (var i = f();)
    GET_GLOBAL 4; GET_PROPERTY 5; PRINT;    (print i.x;)
    NIL; RETURN

with constants `[f, <fn f>, i, f, i, x]`. -/
def c3Script : FunctionData :=
  { arity := 0, upvalueCount := 0, name := none,
    chunk := { code := [31,1, 8,0, 7,3, 28,0, 8,2, 7,4, 12,5, 24, 1, 33],
               lines := List.replicate 19 1,
               constants := [Value.str c3Intern0.1, Value.fn 1, Value.str c3Intern2.1,
                             Value.str c3Intern3.1, Value.str c3Intern4.1,
                             Value.str c3Intern5.1] } }

/-- The full C3 run under the `Rc` drop semantics. -/
def c3Run : Outcome × VMState := runLoopRc 40 (bootState c3Intern5.2.2 [c3Script, c3FunF] 0)

/-! ## Classifiers and demonstration fixtures used by the witnesses -/

def isNumV : Value → Bool | .num _ => true | _ => false
def isStrV : Value → Bool | .str _ => true | _ => false

def addDemoFn : FunctionData := ⟨0, 0, ⟨[18], [1], []⟩, none⟩
def addDemoState : VMState := { vmNew with fnHeap := [addDemoFn], closHeap := [⟨0, []⟩] }

def callDemoFn : FunctionData := ⟨2, 0, ⟨[], [], []⟩, some "g"⟩
def callDemoState : VMState :=
  { vmNew with fnHeap := [callDemoFn], closHeap := [⟨0, []⟩],
               frames := [⟨0, 0, 0⟩],
               stack := [Value.closure 0, Value.num 1, Value.num 2] }

def c8Boot : VMState := bootState c8Intern0.2.2 [c8Script] 0

def propDemoFn : FunctionData := ⟨0, 0, ⟨[13, 0], [1, 1], [Value.str 0]⟩, none⟩
def propDemoState : VMState :=
  { vmNew with strHeap := ["x"], fnHeap := [propDemoFn], closHeap := [⟨0, []⟩],
               classHeap := [some ⟨"K", []⟩], instHeap := [⟨0, []⟩] }

def jumpDemoChunk : Chunk := ⟨[25, 255, 255, 1], [1, 1, 1, 1], []⟩
def jumpDemoFn : FunctionData := ⟨0, 0, (patchJump jumpDemoChunk 1).1, none⟩
def jumpDemoState : VMState := { vmNew with fnHeap := [jumpDemoFn], closHeap := [⟨0, []⟩] }

def uvDemoState : VMState := { vmNew with stack := [Value.num 1, Value.num 2] }

def deadClassDemoFn : FunctionData := ⟨0, 0, ⟨[12, 0], [1, 1], [Value.str 0]⟩, none⟩
def deadClassDemoState : VMState :=
  { vmNew with strHeap := ["x"], fnHeap := [deadClassDemoFn], closHeap := [⟨0, []⟩],
               classHeap := [none], instHeap := [⟨0, []⟩] }

/-! ## Basic lemmas about the stack and map helpers -/

theorem popV_concat (xs : List Value) (v : Value) : popV (xs ++ [v]) = some (v, xs) := by
  simp [popV]

theorem peekV_concat0 (xs : List Value) (v : Value) : peekV (xs ++ [v]) 0 = some v := by
  simp [peekV]

theorem lookup_mem {α β : Type} [BEq α] [LawfulBEq α] {l : List (α × β)} {k : α} {v : β}
    (h : l.lookup k = some v) : (k, v) ∈ l := by
  induction l with
  | nil => simp [List.lookup] at h
  | cons hd tl ih =>
    rw [List.lookup] at h
    rcases hbeq : (k == hd.1) with _ | _
    · rw [hbeq] at h
      exact List.mem_cons_of_mem hd (ih h)
    · rw [hbeq] at h
      have hk : k = hd.1 := eq_of_beq hbeq
      have hv : hd.2 = v := by
        injection h
      have hpair : (k, v) = hd := by
        rw [hk, ← hv]
      rw [hpair]
      exact List.mem_cons_self hd tl

theorem popV_concat2 (xs : List Value) (a b : Value) :
    popV (xs ++ [a, b]) = some (b, xs ++ [a]) := by
  have h : xs ++ [a, b] = (xs ++ [a]) ++ [b] := by simp
  rw [h, popV_concat]

theorem peekV_concat2_0 (xs : List Value) (a b : Value) :
    peekV (xs ++ [a, b]) 0 = some b := by
  have h : xs ++ [a, b] = (xs ++ [a]) ++ [b] := by simp
  rw [h, peekV_concat0]

theorem peekV_concat2_1 (xs : List Value) (a b : Value) :
    peekV (xs ++ [a, b]) 1 = some a := by
  have h : xs ++ [a, b] = (xs ++ [a]) ++ [b] := by simp
  rw [h]
  unfold peekV
  have hlen : ((xs ++ [a]) ++ [b]).length = xs.length + 2 := by simp
  rw [hlen]
  have hlt : 1 < xs.length + 2 := by omega
  rw [if_pos hlt]
  have hidx : xs.length + 2 - 1 - 1 = xs.length := by omega
  rw [hidx]
  rw [List.get?_append (by simp)]
  exact List.get?_concat_length xs a


/-- C4: `OP_ADD` with two Number operands pops both and pushes their sum;
with two string objects it pops both and pushes the interned concatenation
(left contents then right contents; the result cell holds exactly the
concatenated contents); with any other combination of operand kinds it
raises the runtime error `Operands must be two numbers or two strings.`. -/
theorem add_dispatch_semantics (σ : VMState) (f : Frame) (rest : List Frame)
    (cl : ClosureData) (fn : FunctionData) (base : List Value)
    (hcl : σ.closHeap.get? f.closId = some cl)
    (hfn : σ.fnHeap.get? cl.fnId = some fn)
    (hop : fn.chunk.code.get? f.ip = some 18) :
    (∀ x y : Rat,
      vmStep { σ with frames := f :: rest, stack := base ++ [Value.num x, Value.num y] }
        = .ok { σ with frames := { f with ip := f.ip + 1 } :: rest,
                       stack := base ++ [Value.num (x + y)] })
  ∧ (∀ (i j : Nat) (sa sb : String),
      σ.strHeap.get? i = some sa → σ.strHeap.get? j = some sb →
      InternerWF σ.vmInterner σ.strHeap →
      vmStep { σ with frames := f :: rest, stack := base ++ [Value.str i, Value.str j] }
        = .ok { σ with
                  frames := { f with ip := f.ip + 1 } :: rest,
                  stack := base ++ [Value.str (Interner.intern σ.vmInterner σ.strHeap (sa ++ sb)).1],
                  vmInterner := (Interner.intern σ.vmInterner σ.strHeap (sa ++ sb)).2.1,
                  strHeap := (Interner.intern σ.vmInterner σ.strHeap (sa ++ sb)).2.2 }
      ∧ (Interner.intern σ.vmInterner σ.strHeap (sa ++ sb)).2.2.get?
          (Interner.intern σ.vmInterner σ.strHeap (sa ++ sb)).1 = some (sa ++ sb))
  ∧ (∀ a b : Value, (isNumV a && isNumV b) = false → (isStrV a && isStrV b) = false →
      vmStep { σ with frames := f :: rest, stack := base ++ [a, b] }
        = .err "Operands must be two numbers or two strings."
            { σ with frames := [], stack := [], openUpvalues := [] }) := by
  have h18 : OpCode.fromByte 18 = some OpCode.add := rfl
  refine ⟨?_, ?_, ?_⟩
  · intro x y
    simp only [vmStep, hcl, hfn, hop, h18, execOp, execAdd, binaryOp,
      peekV_concat2_0, peekV_concat2_1, popV_concat2, popV_concat]
  · intro i j sa sb hsa hsb hwf
    constructor
    · simp only [vmStep, hcl, hfn, hop, h18, execOp, execAdd,
        peekV_concat2_0, peekV_concat2_1, hsa, hsb, popV_concat2, popV_concat]
    · unfold Interner.intern
      cases hlk : (σ.vmInterner.entries.lookup (sa ++ sb)) with
      | some id =>
        simp only [hlk]
        exact hwf _ (lookup_mem hlk)
      | none =>
        simp only [hlk]
        exact List.get?_concat_length _ _
  · intro a b hna hnb
    simp only [vmStep, hcl, hfn, hop, h18, execOp, execAdd,
      peekV_concat2_0, peekV_concat2_1]
    cases a <;> cases b <;> simp_all [isNumV, isStrV, runtimeError]

theorem get?_set_self {α : Type} (l : List α) (i : Nat) (a : α) (h : i < l.length) :
    (l.set i a).get? i = some a := by
  rw [List.get?_eq_getElem?, List.getElem?_set_self']
  simp [List.getElem?_eq_getElem, h]

theorem get?_set_ne {α : Type} (l : List α) (i j : Nat) (a : α) (h : i ≠ j) :
    (l.set i a).get? j = l.get? j := by
  rw [List.get?_eq_getElem?, List.get?_eq_getElem?, List.getElem?_set_ne h]

theorem get?_concat3_0 {α : Type} (l : List α) (x y z : α) :
    (l ++ [x, y, z]).get? l.length = some x := by
  have h : l ++ [x, y, z] = (l ++ [x]) ++ [y, z] := by simp
  rw [h, List.get?_append (by simp)]
  exact List.get?_concat_length l x

theorem get?_concat3_1 {α : Type} (l : List α) (x y z : α) :
    (l ++ [x, y, z]).get? (l.length + 1) = some y := by
  have h : l ++ [x, y, z] = ((l ++ [x]) ++ [y]) ++ [z] := by simp
  rw [h, List.get?_append (by simp)]
  have h2 : l.length + 1 = (l ++ [x]).length := by simp
  rw [h2]
  exact List.get?_concat_length _ y

theorem get?_concat3_2 {α : Type} (l : List α) (x y z : α) :
    (l ++ [x, y, z]).get? (l.length + 2) = some z := by
  have h : l ++ [x, y, z] = ((l ++ [x]) ++ [y]) ++ [z] := by simp
  have h2 : l.length + 2 = ((l ++ [x]) ++ [y]).length := by simp
  rw [h, h2]
  exact List.get?_concat_length _ z


/-- Witness for C4 at a concrete state: `1 + 2` pushes `3`. -/
theorem add_dispatch_semantics_witness :
    vmStep { addDemoState with frames := [⟨0, 0, 0⟩], stack := [Value.num 1, Value.num 2] }
      = .ok { addDemoState with frames := [⟨0, 1, 0⟩], stack := [Value.num (1 + 2)] } := by
  have h := (add_dispatch_semantics addDemoState ⟨0, 0, 0⟩ [] ⟨0, []⟩ addDemoFn []
    rfl rfl rfl).1 1 2
  simpa using h

/-- C7: dispatching a call on a Closure raises a runtime error when the
argument count differs from the function's arity, raises `Stack overflow.`
when 64 frames are already active, and otherwise pushes a `CallFrame` with
`ip = 0` and `slot_offset = stack.len() - argc - 1` (the callee occupies
the frame's slot 0). -/
theorem call_closure_semantics (σ : VMState) (closId argc : Nat)
    (cl : ClosureData) (fn : FunctionData)
    (hcl : σ.closHeap.get? closId = some cl)
    (hfn : σ.fnHeap.get? cl.fnId = some fn) :
    (argc ≠ fn.arity →
      vmCall σ closId argc
        = .err ("Expected " ++ toString fn.arity ++ " arguments but got " ++ toString argc ++ ".")
            { σ with stack := [], frames := [], openUpvalues := [] })
  ∧ (argc = fn.arity → 64 ≤ σ.frames.length →
      vmCall σ closId argc
        = .err "Stack overflow." { σ with stack := [], frames := [], openUpvalues := [] })
  ∧ (argc = fn.arity → σ.frames.length < 64 → argc + 1 ≤ σ.stack.length →
      vmCall σ closId argc
        = .ok { σ with frames := ⟨closId, 0, σ.stack.length - argc - 1⟩ :: σ.frames }) := by
  refine ⟨?_, ?_, ?_⟩
  · intro h
    simp only [vmCall, hcl, hfn, runtimeError]
    rw [if_pos h]
  · intro h1 h2
    simp only [vmCall, hcl, hfn, runtimeError]
    rw [if_neg (by omega : ¬ argc ≠ fn.arity), if_pos h2]
  · intro h1 h2 h3
    simp only [vmCall, hcl, hfn, runtimeError]
    rw [if_neg (by omega : ¬ argc ≠ fn.arity),
        if_neg (by omega : ¬ 64 ≤ σ.frames.length), if_pos h3]


/-- Witness for C7: a 2-argument call at a concrete state pushes the
expected frame. -/
theorem call_closure_semantics_witness :
    vmCall callDemoState 0 2
      = .ok { callDemoState with frames := ⟨0, 0, 0⟩ :: callDemoState.frames } := by
  have h := (call_closure_semantics callDemoState 0 2 ⟨0, []⟩ callDemoFn rfl rfl).2.2
    rfl (by decide) (by decide)
  simpa using h

/-- C8: `OP_GET_GLOBAL` and `OP_SET_GLOBAL` raise
`Undefined variable '<name>'.` exactly when the name is absent from the
globals table — on a missing name `OP_SET_GLOBAL` leaves `globals`
untouched, while on a present name it succeeds, overwrites the binding
and leaves the assigned value on the stack — `OP_DEFINE_GLOBAL` always
inserts and the inserted binding shadows any previous one; and the
program `print foo;` fails at runtime with message
`Undefined variable 'foo'.`. -/
theorem global_ops_semantics (σ : VMState) (f : Frame) (rest : List Frame)
    (cl : ClosureData) (fn : FunctionData) (n sid : Nat) (name : String)
    (hcl : σ.closHeap.get? f.closId = some cl)
    (hfn : σ.fnHeap.get? cl.fnId = some fn)
    (hoperand : fn.chunk.code.get? (f.ip + 1) = some n)
    (hc : fn.chunk.constants.get? n = some (Value.str sid))
    (hs : σ.strHeap.get? sid = some name) :
    (fn.chunk.code.get? f.ip = some 7 → σ.globals.lookup name = none →
      vmStep { σ with frames := f :: rest }
        = .err ("Undefined variable '" ++ name ++ "'.")
            { σ with frames := [], stack := [], openUpvalues := [] })
  ∧ (∀ v, fn.chunk.code.get? f.ip = some 7 → σ.globals.lookup name = some v →
      vmStep { σ with frames := f :: rest }
        = .ok { σ with frames := { f with ip := f.ip + 2 } :: rest, stack := σ.stack ++ [v] })
  ∧ (fn.chunk.code.get? f.ip = some 9 → σ.globals.lookup name = none →
      vmStep { σ with frames := f :: rest }
        = .err ("Undefined variable '" ++ name ++ "'.")
            { σ with frames := [], stack := [], openUpvalues := [] })
  ∧ (∀ (base : List Value) (v w : Value), fn.chunk.code.get? f.ip = some 9 →
      σ.globals.lookup name = some w →
      vmStep { σ with frames := f :: rest, stack := base ++ [v] }
        = .ok { σ with
                  frames := { f with ip := f.ip + 2 } :: rest,
                  stack := base ++ [v],
                  globals := aInsert σ.globals name v })
  ∧ (∀ (base : List Value) (v : Value), fn.chunk.code.get? f.ip = some 8 →
      vmStep { σ with frames := f :: rest, stack := base ++ [v] }
        = .ok { σ with frames := { f with ip := f.ip + 2 } :: rest, stack := base,
                       globals := aInsert σ.globals name v })
  ∧ (∀ (m : List (String × Value)) (v : Value), (aInsert m name v).lookup name = some v)
  ∧ c8Run.1 = .runtimeErr "Undefined variable 'foo'." := by
  have h7 : OpCode.fromByte 7 = some OpCode.getGlobal := rfl
  have h8 : OpCode.fromByte 8 = some OpCode.defineGlobal := rfl
  have h9 : OpCode.fromByte 9 = some OpCode.setGlobal := rfl
  refine ⟨?_, ?_, ?_, ?_, ?_, ?_, ?_⟩
  · intro hop hmiss
    simp only [vmStep, hcl, hfn, hop, h7, execOp, readStringOp, readConstantOp, readByteOp,
      hoperand, hc, hs, hmiss, runtimeError]
  · intro v hop hhit
    simp only [vmStep, hcl, hfn, hop, h7, execOp, readStringOp, readConstantOp, readByteOp,
      hoperand, hc, hs, hhit]
  · intro hop hmiss
    simp only [vmStep, hcl, hfn, hop, h9, execOp, readStringOp, readConstantOp, readByteOp,
      hoperand, hc, hs, hmiss, runtimeError]
  · intro base v w hop hhit
    simp only [vmStep, hcl, hfn, hop, h9, execOp, readStringOp, readConstantOp, readByteOp,
      hoperand, hc, hs, hhit, peekV_concat0]
  · intro base v hop
    simp only [vmStep, hcl, hfn, hop, h8, execOp, readStringOp, readConstantOp, readByteOp,
      hoperand, hc, hs, popV_concat]
  · intro m v
    simp [aInsert, List.lookup]
  · rfl


/-- Witness for C8: the first step of the compiled `print foo;` program
raises the undefined-variable error. -/
theorem global_ops_semantics_witness :
    vmStep { c8Boot with frames := [⟨0, 0, 0⟩] }
      = .err "Undefined variable 'foo'."
          { c8Boot with frames := [], stack := [], openUpvalues := [] } := by
  have h := (global_ops_semantics c8Boot ⟨0, 0, 0⟩ [] ⟨0, []⟩ c8Script 0 2 "foo"
    rfl rfl rfl rfl rfl).1 rfl rfl
  simpa using h

/-- C10: `OP_SET_PROPERTY` errs only when the assignment target is not
an Instance (`Only instances have fields.`); for an Instance receiver it
always succeeds — the field is inserted, shadowing any previous binding —
then the instance is popped and the assigned value stays on top.  No
undefined-property error exists on this path. -/
theorem setProperty_semantics (σ : VMState) (f : Frame) (rest : List Frame)
    (cl : ClosureData) (fn : FunctionData) (n sid : Nat) (name : String) (base : List Value)
    (hcl : σ.closHeap.get? f.closId = some cl)
    (hfn : σ.fnHeap.get? cl.fnId = some fn)
    (hop : fn.chunk.code.get? f.ip = some 13)
    (hoperand : fn.chunk.code.get? (f.ip + 1) = some n)
    (hc : fn.chunk.constants.get? n = some (Value.str sid))
    (hs : σ.strHeap.get? sid = some name) :
    (∀ recv v, recv.isInstance = false →
      vmStep { σ with frames := f :: rest, stack := base ++ [recv, v] }
        = .err "Only instances have fields."
            { σ with frames := [], stack := [], openUpvalues := [] })
  ∧ (∀ (iid : Nat) (idata : InstData) (v : Value), σ.instHeap.get? iid = some idata →
      vmStep { σ with frames := f :: rest, stack := base ++ [Value.inst iid, v] }
        = .ok { σ with
                  frames := { f with ip := f.ip + 2 } :: rest,
                  stack := base ++ [v],
                  instHeap := σ.instHeap.set iid
                    { idata with fields := aInsert idata.fields name v } })
  ∧ (∀ (m : List (String × Value)) (v : Value), (aInsert m name v).lookup name = some v) := by
  have h13 : OpCode.fromByte 13 = some OpCode.setProperty := rfl
  refine ⟨?_, ?_, ?_⟩
  · intro recv v hni
    simp only [vmStep, hcl, hfn, hop, h13, execOp, execSetProperty, peekV_concat2_1, hni,
      Bool.false_eq_true, if_false, runtimeError]
  · intro iid idata v hinst
    simp only [vmStep, hcl, hfn, hop, h13, execOp, execSetProperty, peekV_concat2_1,
      Value.isInstance, if_true, readStringOp, readConstantOp, readByteOp, hoperand, hc, hs,
      popV_concat2, peekV_concat0, hinst, popV_concat]
  · intro m v
    simp [aInsert, List.lookup]


/-- Witness for C10: setting a fresh field `x` on a concrete instance. -/
theorem setProperty_semantics_witness :
    vmStep { propDemoState with frames := [⟨0, 0, 0⟩], stack := [Value.inst 0, Value.num 7] }
      = .ok { propDemoState with
                frames := [⟨0, 2, 0⟩], stack := [Value.num 7],
                instHeap := [⟨0, [("x", Value.num 7)]⟩] } := by
  have h := (setProperty_semantics propDemoState ⟨0, 0, 0⟩ [] ⟨0, []⟩ propDemoFn 0 0 "x" []
    rfl rfl rfl rfl rfl rfl).2.1 0 ⟨0, []⟩ (Value.num 7) rfl
  simpa [aInsert, aRemove] using h

/-- C6: jump operands are 16-bit big-endian offsets applied after both
operand bytes are read.  `emit_jump` leaves a 2-byte placeholder; for a
forward jump patched by `patch_jump` (offset within 65535, no compile
error), executing the `OP_JUMP` (or a taken `OP_JUMP_IF_FALSE`) sets `ip`
to exactly the code position that was current at patch time; for
`emit_loop(loop_start)` (offset within 65535), executing the emitted
`OP_LOOP` sets `ip` back to exactly `loop_start`; offsets exceeding 65535
are the compile errors `Too much code to jump over.` /
`Loop body too large.`. -/
theorem jump_patch_and_exec :
    (∀ (c : Chunk) (line instr : Nat),
      (emitJump c line instr).1.code = c.code ++ [instr, 255, 255]
      ∧ (emitJump c line instr).2 = c.code.length + 1)
  ∧ (∀ (c : Chunk) (pos : Nat) (σ : VMState) (f : Frame) (rest : List Frame)
        (cl : ClosureData) (fn : FunctionData),
      σ.closHeap.get? f.closId = some cl →
      σ.fnHeap.get? cl.fnId = some fn →
      fn.chunk = (patchJump c pos).1 →
      c.code.get? (pos - 1) = some 25 →
      1 ≤ pos → pos + 2 ≤ c.code.length →
      c.code.length - pos - 2 ≤ 65535 →
      f.ip = pos - 1 →
      (patchJump c pos).2 = []
      ∧ vmStep { σ with frames := f :: rest }
          = .ok { σ with frames := { f with ip := c.code.length } :: rest })
  ∧ (∀ (c : Chunk) (pos : Nat), 65535 < c.code.length - pos - 2 →
      (patchJump c pos).2 = ["Too much code to jump over."])
  ∧ (∀ (c : Chunk) (pos : Nat) (σ : VMState) (f : Frame) (rest : List Frame)
        (cl : ClosureData) (fn : FunctionData) (v : Value),
      σ.closHeap.get? f.closId = some cl →
      σ.fnHeap.get? cl.fnId = some fn →
      fn.chunk = (patchJump c pos).1 →
      c.code.get? (pos - 1) = some 26 →
      1 ≤ pos → pos + 2 ≤ c.code.length →
      c.code.length - pos - 2 ≤ 65535 →
      f.ip = pos - 1 →
      peekV σ.stack 0 = some v → v.isFalsey = true →
      vmStep { σ with frames := f :: rest }
        = .ok { σ with frames := { f with ip := c.code.length } :: rest })
  ∧ (∀ (c : Chunk) (line loopStart : Nat) (σ : VMState) (f : Frame) (rest : List Frame)
        (cl : ClosureData) (fn : FunctionData),
      σ.closHeap.get? f.closId = some cl →
      σ.fnHeap.get? cl.fnId = some fn →
      fn.chunk = (emitLoop c line loopStart).1 →
      loopStart ≤ c.code.length →
      c.code.length + 3 - loopStart ≤ 65535 →
      f.ip = c.code.length →
      (emitLoop c line loopStart).2 = []
      ∧ vmStep { σ with frames := f :: rest }
          = .ok { σ with frames := { f with ip := loopStart } :: rest })
  ∧ (∀ (c : Chunk) (line loopStart : Nat), loopStart ≤ c.code.length →
      65535 < c.code.length + 3 - loopStart →
      (emitLoop c line loopStart).2 = ["Loop body too large."]) := by
  have h25 : OpCode.fromByte 25 = some OpCode.jump := rfl
  have h26 : OpCode.fromByte 26 = some OpCode.jumpIfFalse := rfl
  have h27 : OpCode.fromByte 27 = some OpCode.loop := rfl
  refine ⟨?_, ?_, ?_, ?_, ?_, ?_⟩
  · intro c line instr
    constructor
    · simp [emitJump, Chunk.write, Chunk.count]
    · simp [emitJump, Chunk.write, Chunk.count]
  · intro c pos σ f rest cl fn hcl hfn hchunk hopcode hpos hfit hjump hip
    have hjlt : c.code.length - pos - 2 < 65536 := by omega
    have hmod : (c.code.length - pos - 2) % 65536 = c.code.length - pos - 2 :=
      Nat.mod_eq_of_lt hjlt
    have herrs : (patchJump c pos).2 = [] := by
      simp only [patchJump, Chunk.count]
      rw [if_neg (by omega)]
    refine ⟨herrs, ?_⟩
    have hcode : fn.chunk.code
        = (c.code.set pos ((c.code.length - pos - 2) % 65536 / 256)).set (pos + 1)
            ((c.code.length - pos - 2) % 65536 % 256) := by
      rw [hchunk]
      simp only [patchJump, Chunk.count]
    have e1 : fn.chunk.code.get? f.ip = some 25 := by
      rw [hcode, hip, get?_set_ne _ _ _ _ (by omega), get?_set_ne _ _ _ _ (by omega)]
      exact hopcode
    have e2 : fn.chunk.code.get? (f.ip + 1) = some ((c.code.length - pos - 2) / 256) := by
      have hix : f.ip + 1 = pos := by omega
      rw [hcode, hix, get?_set_ne _ _ _ _ (by omega), hmod,
        get?_set_self _ _ _ (by omega)]
    have e3 : fn.chunk.code.get? (f.ip + 1 + 1) = some ((c.code.length - pos - 2) % 256) := by
      have hix : f.ip + 1 + 1 = pos + 1 := by omega
      rw [hcode, hix, hmod, get?_set_self _ _ _ (by simp; omega)]
    simp only [vmStep, hcl, hfn, e1, h25, execOp, readShortOp, e2, e3]
    have harith : f.ip + 1 + 2 + ((c.code.length - pos - 2) / 256 * 256
        + (c.code.length - pos - 2) % 256) = c.code.length := by omega
    rw [harith]
  · intro c pos h
    simp only [patchJump, Chunk.count]
    rw [if_pos (by omega)]
  · intro c pos σ f rest cl fn v hcl hfn hchunk hopcode hpos hfit hjump hip hpeek hfalsey
    have hjlt : c.code.length - pos - 2 < 65536 := by omega
    have hmod : (c.code.length - pos - 2) % 65536 = c.code.length - pos - 2 :=
      Nat.mod_eq_of_lt hjlt
    have hcode : fn.chunk.code
        = (c.code.set pos ((c.code.length - pos - 2) % 65536 / 256)).set (pos + 1)
            ((c.code.length - pos - 2) % 65536 % 256) := by
      rw [hchunk]
      simp only [patchJump, Chunk.count]
    have e1 : fn.chunk.code.get? f.ip = some 26 := by
      rw [hcode, hip, get?_set_ne _ _ _ _ (by omega), get?_set_ne _ _ _ _ (by omega)]
      exact hopcode
    have e2 : fn.chunk.code.get? (f.ip + 1) = some ((c.code.length - pos - 2) / 256) := by
      have hix : f.ip + 1 = pos := by omega
      rw [hcode, hix, get?_set_ne _ _ _ _ (by omega), hmod,
        get?_set_self _ _ _ (by omega)]
    have e3 : fn.chunk.code.get? (f.ip + 1 + 1) = some ((c.code.length - pos - 2) % 256) := by
      have hix : f.ip + 1 + 1 = pos + 1 := by omega
      rw [hcode, hix, hmod, get?_set_self _ _ _ (by simp; omega)]
    simp only [vmStep, hcl, hfn, e1, h26, execOp, readShortOp, e2, e3, hpeek, hfalsey,
      if_true]
    have harith : f.ip + 1 + 2 + ((c.code.length - pos - 2) / 256 * 256
        + (c.code.length - pos - 2) % 256) = c.code.length := by omega
    rw [harith]
  · intro c line loopStart σ f rest cl fn hcl hfn hchunk hls hfit hip
    have hoff : (c.code.length + 1) - loopStart + 2 = c.code.length + 3 - loopStart := by
      omega
    have hmod : (c.code.length + 3 - loopStart) % 65536 = c.code.length + 3 - loopStart :=
      Nat.mod_eq_of_lt (by omega)
    have herrs : (emitLoop c line loopStart).2 = [] := by
      simp only [emitLoop, Chunk.write, Chunk.count, List.length_append, List.length_cons,
        List.length_nil]
      rw [if_neg (by omega)]
    refine ⟨herrs, ?_⟩
    have hcode : fn.chunk.code = c.code ++ [27, (c.code.length + 3 - loopStart) % 65536 / 256,
        (c.code.length + 3 - loopStart) % 65536 % 256] := by
      rw [hchunk]
      simp [emitLoop, Chunk.write, Chunk.count, hoff]
    have e1 : fn.chunk.code.get? f.ip = some 27 := by
      rw [hcode, hip]
      exact get?_concat3_0 _ _ _ _
    have e2 : fn.chunk.code.get? (f.ip + 1)
        = some ((c.code.length + 3 - loopStart) / 256) := by
      rw [hcode, hip, hmod]
      exact get?_concat3_1 _ _ _ _
    have e3 : fn.chunk.code.get? (f.ip + 1 + 1)
        = some ((c.code.length + 3 - loopStart) % 256) := by
      rw [hcode, hip, hmod]
      have hix : c.code.length + 1 + 1 = c.code.length + 2 := by omega
      rw [hix]
      exact get?_concat3_2 _ _ _ _
    simp only [vmStep, hcl, hfn, e1, h27, execOp, readShortOp, e2, e3]
    have hoffe : (c.code.length + 3 - loopStart) / 256 * 256
        + (c.code.length + 3 - loopStart) % 256 = c.code.length + 3 - loopStart := by omega
    rw [hoffe, if_pos (by omega)]
    have harith : f.ip + 1 + 2 - (c.code.length + 3 - loopStart) = loopStart := by omega
    rw [harith]
  · intro c line loopStart hls h
    simp only [emitLoop, Chunk.write, Chunk.count, List.length_append, List.length_cons,
      List.length_nil]
    rw [if_pos (by omega)]


/-- Witness for C6: a concrete 4-byte chunk whose patched `OP_JUMP` at
position 0 lands on the end of code (the patch-time position). -/
theorem jump_patch_and_exec_witness :
    (patchJump jumpDemoChunk 1).2 = []
    ∧ vmStep { jumpDemoState with frames := [⟨0, 0, 0⟩] }
        = .ok { jumpDemoState with frames := [⟨0, 4, 0⟩] } := by
  have h := jump_patch_and_exec.2.1 jumpDemoChunk 1 jumpDemoState ⟨0, 0, 0⟩ [] ⟨0, []⟩
    jumpDemoFn rfl rfl rfl rfl (by decide) (by decide) (by decide) rfl
  simpa [jumpDemoChunk] using h

theorem closeOne_stack (st : VMState) (p : Nat × Nat) : (closeOne st p).stack = st.stack := by
  unfold closeOne
  split <;> rfl

theorem closeOne_uvHeap_ne (st : VMState) (p : Nat × Nat) (h : Nat) (hne : p.2 ≠ h) :
    (closeOne st p).uvHeap.get? h = st.uvHeap.get? h := by
  unfold closeOne
  split
  · exact get?_set_ne _ _ _ _ hne
  · rfl

theorem foldl_closeOne_uvHeap_ne (l : List (Nat × Nat)) (st : VMState) (h : Nat)
    (hni : h ∉ l.map Prod.snd) :
    (l.foldl closeOne st).uvHeap.get? h = st.uvHeap.get? h := by
  induction l generalizing st with
  | nil => rfl
  | cons hd tl ih =>
    rw [List.map_cons, List.mem_cons] at hni
    push_neg at hni
    rw [List.foldl_cons, ih _ hni.2, closeOne_uvHeap_ne _ _ _ (fun he => hni.1 he.symm)]

theorem foldl_closeOne_uvHeap_close (l : List (Nat × Nat)) (st : VMState) (i h : Nat)
    (hmem : (i, h) ∈ l) (hnodup : (l.map Prod.snd).Nodup)
    (hheap : st.uvHeap.get? h = some ⟨i, none⟩) (hlen : h < st.uvHeap.length) :
    (l.foldl closeOne st).uvHeap.get? h = some ⟨i, some (st.stack.getD i Value.nil)⟩ := by
  induction l generalizing st with
  | nil => cases hmem
  | cons hd tl ih =>
    rw [List.map_cons] at hnodup
    have hnd1 := List.nodup_cons.mp hnodup
    rcases List.mem_cons.mp hmem with heq | hmem'
    · subst heq
      rw [List.foldl_cons]
      have hstep : (closeOne st (i, h)).uvHeap.get? h
          = some ⟨i, some (st.stack.getD i Value.nil)⟩ := by
        unfold closeOne
        rw [hheap]
        exact get?_set_self _ _ _ (by simpa using hlen)
      rw [foldl_closeOne_uvHeap_ne tl _ h hnd1.1, hstep]
    · have hne : hd.2 ≠ h := by
        intro he
        exact hnd1.1 (he ▸ (List.mem_map_of_mem Prod.snd hmem'))
      rw [List.foldl_cons]
      have hheap' : (closeOne st hd).uvHeap.get? h = some ⟨i, none⟩ := by
        rw [closeOne_uvHeap_ne _ _ _ hne]
        exact hheap
      have hlen' : h < (closeOne st hd).uvHeap.length := by
        unfold closeOne
        split
        · simpa using hlen
        · simpa using hlen
      have := ih (closeOne st hd) hmem' hnd1.2 hheap' hlen'
      rw [closeOne_stack] at this
      exact this

/-- C2: `capture_upvalue` deduplicates by stack index — a second capture
of the same live slot returns the same `Upvalue` handle and leaves the
state unchanged, a fresh capture registers its handle, and captures never
remove other slots' registrations (so two closures capturing the same
live local share one handle); while the upvalue is open, a `set_value`
through the shared handle writes the stack slot and a `get_value` through
it reads that slot (an assignment through either closure is observed
through the other); `close_upvalues last` closes every open upvalue with
`location ≥ last` over the value then in its slot, after which `get_value`
returns that final value regardless of the stack. -/
theorem shared_upvalue_capture_and_close :
    (∀ (s : VMState) (i h : Nat), s.openUpvalues.lookup i = some h →
      captureUpvalue s i = (h, s))
  ∧ (∀ (s : VMState) (i : Nat),
      ((captureUpvalue s i).2).openUpvalues.lookup i = some (captureUpvalue s i).1)
  ∧ (∀ (s : VMState) (i j h : Nat), s.openUpvalues.lookup j = some h →
      ((captureUpvalue s i).2).openUpvalues.lookup j = some h)
  ∧ (∀ (loc : Nat) (st : List Value) (v : Value), loc < st.length →
      (UpvalueData.setValue ⟨loc, none⟩ v st).2 = st.set loc v
      ∧ (UpvalueData.setValue ⟨loc, none⟩ v st).1 = ⟨loc, none⟩
      ∧ UpvalueData.getValue ⟨loc, none⟩ (st.set loc v) = some v)
  ∧ (∀ (s : VMState) (last i h : Nat), s.openUpvalues.lookup i = some h →
      last ≤ i → (s.openUpvalues.map Prod.snd).Nodup →
      s.uvHeap.get? h = some ⟨i, none⟩ →
      (closeUpvalues s last).uvHeap.get? h = some ⟨i, some (s.stack.getD i Value.nil)⟩
      ∧ (∀ (st : List Value),
          UpvalueData.getValue ⟨i, some (s.stack.getD i Value.nil)⟩ st
            = some (s.stack.getD i Value.nil))) := by
  refine ⟨?_, ?_, ?_, ?_, ?_⟩
  · intro s i h hlk
    simp [captureUpvalue, hlk]
  · intro s i
    unfold captureUpvalue
    cases hlk : s.openUpvalues.lookup i with
    | some h => simpa using hlk
    | none => simp [List.lookup]
  · intro s i j h hlk
    unfold captureUpvalue
    cases hlk2 : s.openUpvalues.lookup i with
    | some g => simpa using hlk
    | none =>
      have hne : (j == i) = false := by
        rcases hbe : (j == i) with _ | _
        · rfl
        · have : j = i := eq_of_beq hbe
          rw [this] at hlk
          rw [hlk] at hlk2
          cases hlk2
      simp [List.lookup, hne, hlk]
  · intro loc st v hlt
    refine ⟨rfl, rfl, ?_⟩
    unfold UpvalueData.getValue
    simp only
    exact get?_set_self _ _ _ (by simpa using hlt)
  · intro s last i h hlk hge hnodup hheap
    have hlen : h < s.uvHeap.length := by
      by_contra hcon
      rw [List.get?_eq_none.mpr (by omega)] at hheap
      cases hheap
    have hmem : (i, h) ∈ s.openUpvalues.filter (fun p => decide (last ≤ p.1)) := by
      refine List.mem_filter.mpr ⟨lookup_mem hlk, by simpa using hge⟩
    have hnodup2 : ((s.openUpvalues.filter (fun p => decide (last ≤ p.1))).map Prod.snd).Nodup :=
      hnodup.sublist ((List.filter_sublist _).map Prod.snd)
    refine ⟨?_, fun st => rfl⟩
    unfold closeUpvalues
    exact foldl_closeOne_uvHeap_close _ s i h hmem hnodup2 hheap hlen


/-- Witness for C2: capturing slot 1 twice yields the same handle, and
closing makes the cell hold the slot's final value `2`. -/
theorem shared_upvalue_capture_and_close_witness :
    captureUpvalue (captureUpvalue uvDemoState 1).2 1
      = ((captureUpvalue uvDemoState 1).1, (captureUpvalue uvDemoState 1).2)
    ∧ (closeUpvalues (captureUpvalue uvDemoState 1).2 1).uvHeap.get? 0
      = some ⟨1, some (Value.num 2)⟩ := by
  have hcap := shared_upvalue_capture_and_close.1 (captureUpvalue uvDemoState 1).2 1 0 rfl
  have hclose := (shared_upvalue_capture_and_close.2.2.2.2 (captureUpvalue uvDemoState 1).2
    1 1 0 rfl (by decide) (by decide) rfl).1
  refine ⟨by simpa using hcap, by simpa using hclose⟩

theorem addUpvalue_preserves (fc : UpvalueCompiler) (i : Nat) (l : Bool)
    (h : fc.upvalues.length = fc.upvalueCount) :
    ((addUpvalue fc i l).2).upvalues.length = ((addUpvalue fc i l).2).upvalueCount := by
  unfold addUpvalue
  cases hfind : List.findIdx? (fun u => u.index == i && u.isLocal == l)
      (List.take fc.upvalueCount fc.upvalues) with
  | some k => simp [hfind, h]
  | none =>
    by_cases hc : 256 ≤ fc.upvalueCount
    · simp [hfind, hc, h]
    · simp [hfind, hc, h]

theorem addUpvalues_preserves (reqs : List (Nat × Bool)) (fc : UpvalueCompiler)
    (h : fc.upvalues.length = fc.upvalueCount) :
    (addUpvalues reqs fc).upvalues.length = (addUpvalues reqs fc).upvalueCount := by
  induction reqs generalizing fc with
  | nil => exact h
  | cons hd tl ih =>
    unfold addUpvalues
    rw [List.foldl_cons]
    exact ih _ (addUpvalue_preserves fc hd.1 hd.2 h)

theorem pairBytes_length (l : List (Bool × Nat)) :
    (l.flatMap (fun p => [if p.1 then 1 else 0, p.2])).length = 2 * l.length := by
  induction l with
  | nil => rfl
  | cons hd tl ih =>
    rw [List.flatMap_cons, List.length_append, ih]
    simp
    omega

/-- C5: any sequence of `add_upvalue` calls (the only operations that
touch the upvalue bookkeeping) keeps `upvalues.len() = function.
upvalue_count`, and the operand bytes emitted after `OP_CLOSURE
<constant>` are exactly one `(is_local, index)` pair — two bytes — per
upvalue, i.e. `2 * upvalue_count` trailing bytes. -/
theorem closure_upvalue_pair_count (reqs : List (Nat × Bool)) :
    (addUpvalues reqs upvalueCompilerInit).upvalues.length
      = (addUpvalues reqs upvalueCompilerInit).upvalueCount
  ∧ (closureOperandBytes (addUpvalues reqs upvalueCompilerInit)).length
      = 2 * (addUpvalues reqs upvalueCompilerInit).upvalueCount := by
  have hinv := addUpvalues_preserves reqs upvalueCompilerInit rfl
  refine ⟨hinv, ?_⟩
  rw [closureOperandBytes, pairBytes_length, List.length_map, hinv]

/-- C9: inside an initializer (`function_type = Initializer`, which is
what a method named `init` compiles as), `return <expression>;` reports
the compile error `Can't return a value from an initializer.` (so
`class C { init() { return 1; } }` fails to compile), while a bare
`return;` is accepted without error and emits `OP_GET_LOCAL 0` followed
by `OP_RETURN` — the same sequence `emit_return` produces for the
implicit return at the end of an initializer body. -/
theorem initializer_return_rules :
    (∀ e : List Nat,
      (returnStatement .initializer false e).2 = ["Can't return a value from an initializer."])
  ∧ (∀ e : List Nat, (returnStatement .initializer true e).1 = emitReturnBytes .initializer)
  ∧ (∀ e : List Nat, (returnStatement .initializer true e).2 = [])
  ∧ emitReturnBytes .initializer = [5, 0, 33]
  ∧ methodFunctionType "init" = .initializer := by
  refine ⟨fun e => rfl, fun e => rfl, fun e => rfl, rfl, rfl⟩

/-- C1 (refuted — code bug): the program
`var a = "he" + "llo"; var b = "hello"; print a == b;` runs without
error but prints `false`, not `true`: `Compiler::compile` creates its own
`StringInterner`, so the chunk's `"hello"` literal and the `OP_ADD`
result interned into the *VM's* interner are distinct `Rc<str>`
allocations, and `OP_EQUAL` compares strings by `Rc::ptr_eq`. -/
theorem interning_bug_concat_literal_prints_false :
    c1Run.1 = .ok ∧ c1Run.2.output = ["false"] := ⟨rfl, rfl⟩

/-- Counterexample to C3: running
`fun f() { class C {} return C(); } var i = f(); print i.x;`
(under the Rc drop semantics for classes) reaches `OP_GET_PROPERTY` on an
instance that is still reachable (it sits in `globals` and on the stack)
whose class allocation was dropped when `f` returned, and the upgrade
fails: the run ends in the runtime error
`Instance's class has been deallocated.`. -/
theorem instance_class_upgrade_failure_run :
    c3Run.1 = .runtimeErr "Instance's class has been deallocated." := rfl

/-- C3 (amended): when `OP_GET_PROPERTY` — or `OP_INVOKE`, via
`VM::invoke` — misses the instance's fields and dereferences the weak
class handle, the upgrade succeeds exactly when the class allocation is
still alive: if the class has been dropped (possible for a reachable
instance, see the counterexample) the VM raises the runtime error
`Instance's class has been deallocated.`; if the class is alive,
`OP_GET_PROPERTY` proceeds to `bind_method` and `OP_INVOKE` to
`invoke_from_class`, and no deallocation error can arise. -/
theorem weak_class_upgrade_dichotomy (σ : VMState) (f : Frame) (rest : List Frame)
    (cl : ClosureData) (fn : FunctionData) (n sid : Nat) (name : String)
    (base : List Value) (iid : Nat) (idata : InstData)
    (hcl : σ.closHeap.get? f.closId = some cl)
    (hfn : σ.fnHeap.get? cl.fnId = some fn)
    (hop : fn.chunk.code.get? f.ip = some 12)
    (hoperand : fn.chunk.code.get? (f.ip + 1) = some n)
    (hc : fn.chunk.constants.get? n = some (Value.str sid))
    (hs : σ.strHeap.get? sid = some name)
    (hinst : σ.instHeap.get? iid = some idata)
    (hfield : idata.fields.lookup name = none) :
    (σ.classHeap.get? idata.classId = some none →
      vmStep { σ with frames := f :: rest, stack := base ++ [Value.inst iid] }
        = .err "Instance's class has been deallocated."
            { σ with frames := [], stack := [], openUpvalues := [] })
  ∧ (∀ cls : ClassData, σ.classHeap.get? idata.classId = some (some cls) →
      vmStep { σ with frames := f :: rest, stack := base ++ [Value.inst iid] }
        = bindMethod { σ with
                         frames := { f with ip := f.ip + 2 } :: rest,
                         stack := base ++ [Value.inst iid] } cls name)
  ∧ (∀ argc : Nat, peekV σ.stack argc = some (Value.inst iid) →
      σ.classHeap.get? idata.classId = some none →
      vmInvoke σ name argc
        = .err "Instance's class has been deallocated."
            { σ with frames := [], stack := [], openUpvalues := [] })
  ∧ (∀ (argc : Nat) (cls : ClassData), peekV σ.stack argc = some (Value.inst iid) →
      σ.classHeap.get? idata.classId = some (some cls) →
      vmInvoke σ name argc = invokeFromClass σ cls name argc) := by
  have h12 : OpCode.fromByte 12 = some OpCode.getProperty := rfl
  refine ⟨?_, ?_, ?_, ?_⟩
  · intro hdead
    simp only [vmStep, hcl, hfn, hop, h12, execOp, execGetProperty, peekV_concat0,
      readStringOp, readConstantOp, readByteOp, hoperand, hc, hs, hinst, hfield, hdead,
      runtimeError]
  · intro cls hlive
    simp only [vmStep, hcl, hfn, hop, h12, execOp, execGetProperty, peekV_concat0,
      readStringOp, readConstantOp, readByteOp, hoperand, hc, hs, hinst, hfield, hlive]
  · intro argc hpk hdead
    simp only [vmInvoke, hpk, hinst, hfield, hdead, runtimeError]
  · intro argc cls hpk hlive
    simp only [vmInvoke, hpk, hinst, hfield, hlive]


/-- Witness for C3 (amended): a concrete instance whose class cell has
been dropped makes both `OP_GET_PROPERTY` and `VM::invoke` raise the
deallocation error. -/
theorem weak_class_upgrade_dichotomy_witness :
    vmStep { deadClassDemoState with frames := [⟨0, 0, 0⟩], stack := [Value.inst 0] }
      = .err "Instance's class has been deallocated."
          { deadClassDemoState with frames := [], stack := [], openUpvalues := [] }
    ∧ vmInvoke { deadClassDemoState with stack := [Value.inst 0] } "x" 0
      = .err "Instance's class has been deallocated."
          { deadClassDemoState with frames := [], stack := [], openUpvalues := [] } := by
  have h := weak_class_upgrade_dichotomy
    { deadClassDemoState with stack := [Value.inst 0] } ⟨0, 0, 0⟩ [] ⟨0, []⟩
    deadClassDemoFn 0 0 "x" [] 0 ⟨0, []⟩ rfl rfl rfl rfl rfl rfl rfl rfl
  refine ⟨by simpa using h.1 rfl, by simpa using h.2.2.1 0 rfl rfl⟩
